import Mathlib

/-!
Verification of the multi-dimensional shoe-fit scoring engine of the
Shoe-Shopper backend (`backend/core/views.py`).

The engine is pure arithmetic over Python floats; we embed it over `ℚ`
(idealised exact arithmetic).  Python's `round(x, n)` (banker's rounding)
is modelled by `pyRound`, Python float truthiness of optional numbers by
`truthy`, and the float operation `x ** 0.5` by the rational square-root
approximation `sqrtQ` (exact on perfect squares, and defined as `0` on
non-positive inputs, which no positive-dimension code path reaches).
Optional (`None`-able) arguments are `Option ℚ`; the shoe-type string is
`Option String` (`none` models Python `None`).
-/

namespace ShoeShopper

/-- Model of Python `round(x, n)`: round `x` to `n` decimal places using
round-half-to-even (banker's rounding). -/
def pyRound (n : ℕ) (x : ℚ) : ℚ :=
  let y : ℚ := x * (10 : ℚ) ^ n
  let f : ℤ := ⌊y⌋
  let r : ℚ := y - (f : ℚ)
  let k : ℤ :=
    if r < 1 / 2 then f
    else if 1 / 2 < r then f + 1
    else if f % 2 = 0 then f else f + 1
  (k : ℚ) / (10 : ℚ) ^ n

/-- Rational model of the Python float operation `x ** 0.5`: a square-root
approximation with six fractional digits, exact on perfect squares.  It is
`0` on non-positive inputs (the source only ever takes the square root of
`4 - 3*h` with `0 ≤ h < 1`, which is positive). -/
def sqrtQ (x : ℚ) : ℚ :=
  if x ≤ 0 then 0
  else ((Nat.sqrt (x.num.toNat * 10 ^ 12 / x.den) : ℚ)) / 10 ^ 6

/-- Python truthiness of an optional float: `None` and `0` are falsy,
every other number is truthy. -/
def truthy : Option ℚ → Bool
  | none => false
  | some v => v != 0

/-- The validation test `val is None or val <= 0` applied to each of the
four required dimensions of the scorers. -/
def invalidReq : Option ℚ → Bool
  | none => true
  | some v => decide (v ≤ 0)

/-- From `estimate_foot_area_from_dimensions` (views.py): foot area is the
bounding-box area times the foot shape factor `0.7`, rounded to 2 decimals;
`None` when either dimension is falsy. -/
def estimate_foot_area_from_dimensions (length_inches width_inches : ℚ) : Option ℚ :=
  if length_inches ≠ 0 ∧ width_inches ≠ 0 then
    some (pyRound 2 (length_inches * width_inches * 0.7))
  else none

/-- From `estimate_foot_perimeter_from_dimensions` (views.py): Ramanujan's
ellipse-perimeter approximation on semi-axes `a = length/2`, `b = width/2`,
doubled (the code's `p` uses semi-axes), rounded to 2 decimals. -/
def estimate_foot_perimeter_from_dimensions (length_inches width_inches : ℚ) : Option ℚ :=
  if length_inches ≠ 0 ∧ width_inches ≠ 0 then
    let a : ℚ := length_inches / 2
    let b : ℚ := width_inches / 2
    let h : ℚ := ((a - b) / (a + b)) ^ 2
    let p : ℚ := 3.14159 * (a + b) * (1 + (3 * h) / (10 + sqrtQ (4 - 3 * h)))
    some (pyRound 2 (2 * p))
  else none

/-- From `estimate_shoe_area_from_dimensions` (views.py): like the foot
estimator but with the shoe (insole) shape factor `0.75`. -/
def estimate_shoe_area_from_dimensions (length_inches width_inches : ℚ) : Option ℚ :=
  if length_inches ≠ 0 ∧ width_inches ≠ 0 then
    some (pyRound 2 (length_inches * width_inches * 0.75))
  else none

/-- From `estimate_shoe_perimeter_from_dimensions` (views.py): the same
ellipse formula, scaled by `2.1` instead of `2` (5% roomier interior). -/
def estimate_shoe_perimeter_from_dimensions (length_inches width_inches : ℚ) : Option ℚ :=
  if length_inches ≠ 0 ∧ width_inches ≠ 0 then
    let a : ℚ := length_inches / 2
    let b : ℚ := width_inches / 2
    let h : ℚ := ((a - b) / (a + b)) ^ 2
    let p : ℚ := 3.14159 * (a + b) * (1 + (3 * h) / (10 + sqrtQ (4 - 3 * h)))
    some (pyRound 2 (2.1 * p))
  else none

/-- A clearance profile: the four allowances a shoe type requires
(length/width/perimeter additive in inches, area a multiplicative fraction). -/
structure Clearances where
  length : ℚ
  width : ℚ
  perimeter : ℚ
  area : ℚ
  deriving DecidableEq, Repr

/-- From `get_clearances_by_shoe_type` (views.py): the static clearance
table; any unrecognised type (including `None`) falls back to the
`casual` profile via `dict.get`. -/
def get_clearances_by_shoe_type (shoe_type : Option String) : Clearances :=
  if shoe_type = some "running" then ⟨0.5, 0.08, 0.4, 0.15⟩
  else if shoe_type = some "hiking" then ⟨0.6, 0.12, 0.6, 0.2⟩
  else if shoe_type = some "casual" then ⟨0.25, 0.04, 0.2, 0.1⟩
  else if shoe_type = some "work" then ⟨0.4, 0.08, 0.3, 0.12⟩
  else ⟨0.25, 0.04, 0.2, 0.1⟩

/-- The length sub-score block of `enhanced_score_shoe_4d` (views.py):
piecewise-smooth penalty curve on `r = adjusted_foot_length / shoe_length`
(zone constants `LENGTH_TIGHT_THRESHOLD = 1.02`,
`LENGTH_MODERATE_THRESHOLD = 1.05` inlined as in the source comments). -/
def length_subscore (adj_length shoe_length : ℚ) : ℚ :=
  let r : ℚ := adj_length / shoe_length
  if r ≤ 0.95 then 100 * (0.85 + 0.15 * (r / 0.95))          -- 85-100 range
  else if r ≤ 1.0 then 100 * (0.95 + 0.05 * r)               -- 95-100 range
  else if r ≤ 1.02 then 95 - ((r - 1.0) / 0.02) * 15         -- 95-80 range
  else if r ≤ 1.05 then 80 - ((r - 1.02) / 0.03) * 25        -- 80-55 range
  else if r ≤ 1.10 then 55 - ((r - 1.05) / 0.05) * 35        -- 55-20 range
  else max 5 (20 - (min (r - 1.10) 0.05 / 0.05) * 15)        -- 20-5 range

/-- The width sub-score block of `enhanced_score_shoe_4d` (views.py):
curve on the symmetric difference `|adjusted_foot_width - shoe_width| /
shoe_width` (zone constants 0.05/0.10/0.15/0.20 inlined). -/
def width_subscore (adj_width shoe_width : ℚ) : ℚ :=
  let d : ℚ := |adj_width - shoe_width| / shoe_width
  if d ≤ 0.05 then 100 - d * 200                             -- 100-90 range
  else if d ≤ 0.10 then 90 - ((d - 0.05) / 0.05) * 20        -- 90-70 range
  else if d ≤ 0.15 then 70 - ((d - 0.10) / 0.05) * 30        -- 70-40 range
  else if d ≤ 0.20 then 40 - ((d - 0.15) / 0.05) * 25        -- 40-15 range
  else max 5 (15 - min (d - 0.20) 0.10 * 100)                -- 15-5 range

/-- The perimeter penalty curve shared by the measured-perimeter branch of
`enhanced_score_shoe_4d` and by `estimate_perimeter_score` (the source
duplicates this block textually; zone constants
`PERIMETER_PERFECT_MIN = 0.90`, `PERIMETER_PERFECT_MAX = 1.08`,
`PERIMETER_TIGHT_THRESHOLD = 1.12`, `PERIMETER_MAX_RATIO = 1.18`). -/
def perimeter_curve (r : ℚ) : ℚ :=
  if 0.90 ≤ r ∧ r ≤ 1.08 then 100
  else if 0.85 ≤ r ∧ r < 0.90 then 100 - ((0.90 - r) / 0.05) * 15    -- 100-85
  else if r < 0.85 then max 10 (85 - (min (0.85 - r) 0.15 / 0.15) * 75) -- 85-10
  else if 1.08 < r ∧ r ≤ 1.12 then 100 - ((r - 1.08) / 0.04) * 25    -- 100-75
  else if r ≤ 1.18 then 75 - ((r - 1.12) / 0.06) * 50                -- 75-25
  else max 5 (25 - min (r - 1.18) 0.10 * 200)                        -- 25-5

/-- The area penalty curve shared by the measured-area branch of
`enhanced_score_shoe_4d` and by `estimate_area_score` (zone constants
`AREA_PERFECT_MIN = 0.88`, `AREA_PERFECT_MAX = 1.02`,
`AREA_TIGHT_THRESHOLD = 1.08`, `AREA_MAX_RATIO = 1.15`). -/
def area_curve (r : ℚ) : ℚ :=
  if 0.88 ≤ r ∧ r ≤ 1.02 then 100
  else if 0.80 ≤ r ∧ r < 0.88 then 100 - ((0.88 - r) / 0.08) * 10    -- 100-90
  else if r < 0.80 then max 20 (90 - (min (0.80 - r) 0.20 / 0.20) * 70) -- 90-20
  else if 1.02 < r ∧ r ≤ 1.08 then 100 - ((r - 1.02) / 0.06) * 20    -- 100-80
  else if r ≤ 1.15 then 80 - ((r - 1.08) / 0.07) * 50                -- 80-30
  else max 10 (30 - min (r - 1.15) 0.10 * 200)                       -- 30-10

/-- From `estimate_perimeter_score` (views.py): estimate both perimeters
from the raw length/width pairs and run the perimeter curve on their
ratio; default moderate score 75 when an estimate is falsy. -/
def estimate_perimeter_score (user_length user_width shoe_length shoe_width : ℚ) : ℚ :=
  let up := estimate_foot_perimeter_from_dimensions user_length user_width
  let sp := estimate_shoe_perimeter_from_dimensions shoe_length shoe_width
  if truthy up && truthy sp then perimeter_curve (up.getD 0 / sp.getD 0)
  else 75

/-- From `estimate_area_score` (views.py): estimate both areas from the raw
length/width pairs and run the area curve on their ratio; default 75. -/
def estimate_area_score (user_length user_width shoe_length shoe_width : ℚ) : ℚ :=
  let ua := estimate_foot_area_from_dimensions user_length user_width
  let sa := estimate_shoe_area_from_dimensions shoe_length shoe_width
  if truthy ua && truthy sa then area_curve (ua.getD 0 / sa.getD 0)
  else 75

/-- The line `adjusted_foot['perimeter'] = user_perimeter +
clearances['perimeter'] if user_perimeter else None` of
`enhanced_score_shoe_4d`. -/
def adjust_perimeter (user_perimeter : Option ℚ) (clearance : ℚ) : Option ℚ :=
  if truthy user_perimeter then some (user_perimeter.getD 0 + clearance) else none

/-- The line `adjusted_foot['area'] = user_area * (1 + clearances['area'])
if user_area else None` of `enhanced_score_shoe_4d`. -/
def adjust_area (user_area : Option ℚ) (clearance : ℚ) : Option ℚ :=
  if truthy user_area then some (user_area.getD 0 * (1 + clearance)) else none

/-- The perimeter sub-score selection of `enhanced_score_shoe_4d`
(views.py): use the measured ratio when both the adjusted foot perimeter
and the shoe perimeter are truthy, else fall back to
`estimate_perimeter_score` on the raw lengths/widths. -/
def perimeter_subscore (adjP shoe_perimeter : Option ℚ)
    (user_length user_width shoe_length shoe_width : ℚ) : ℚ :=
  if truthy adjP && truthy shoe_perimeter then
    perimeter_curve (adjP.getD 0 / shoe_perimeter.getD 0)
  else estimate_perimeter_score user_length user_width shoe_length shoe_width

/-- The area sub-score selection of `enhanced_score_shoe_4d` (views.py). -/
def area_subscore (adjA shoe_area : Option ℚ)
    (user_length user_width shoe_length shoe_width : ℚ) : ℚ :=
  if truthy adjA && truthy shoe_area then
    area_curve (adjA.getD 0 / shoe_area.getD 0)
  else estimate_area_score user_length user_width shoe_length shoe_width

/-- The body of `enhanced_score_shoe_4d` after input validation and the
clearance lookup (views.py): adjust the foot measurements by the clearance
profile, compute the four sub-scores, take the research-based weighted sum
(length 0.375, width 0.275, perimeter 0.225, area 0.125), round to one
decimal and clamp to `[0, 100]` via `min(100, max(0, round(. , 1)))`. -/
def score_with_clearances (user_length user_width : ℚ) (user_area user_perimeter : Option ℚ)
    (shoe_length shoe_width : ℚ) (shoe_area shoe_perimeter : Option ℚ)
    (clearances : Clearances) : ℚ :=
  let adjP := adjust_perimeter user_perimeter clearances.perimeter
  let adjA := adjust_area user_area clearances.area
  let sLen := length_subscore (user_length + clearances.length) shoe_length
  let sWid := width_subscore (user_width + clearances.width) shoe_width
  let sPer := perimeter_subscore adjP shoe_perimeter user_length user_width shoe_length shoe_width
  let sAre := area_subscore adjA shoe_area user_length user_width shoe_length shoe_width
  let final : ℚ := 0.375 * sLen + 0.275 * sWid + 0.225 * sPer + 0.125 * sAre
  min 100 (max 0 (pyRound 1 final))

/-- From `enhanced_score_shoe_4d` (views.py): validate the four required
dimensions (`any(val is None or val <= 0 ...)` returns `0`), then score
with the clearance profile of the given shoe type (Python default
`shoe_type="general"`). -/
def enhanced_score_shoe_4d (user_length user_width user_area user_perimeter
    shoe_length shoe_width shoe_area shoe_perimeter : Option ℚ)
    (shoe_type : Option String := some "general") : ℚ :=
  if invalidReq user_length || invalidReq user_width ||
     invalidReq shoe_length || invalidReq shoe_width then 0
  else
    score_with_clearances (user_length.getD 0) (user_width.getD 0) user_area user_perimeter
      (shoe_length.getD 0) (shoe_width.getD 0) shoe_area shoe_perimeter
      (get_clearances_by_shoe_type shoe_type)

/-- From `enhanced_score_shoe` (views.py), the legacy reduced-input entry
point: validate, estimate area/perimeter on both sides from length/width,
and call the 4D scorer (with its Python default `shoe_type="general"`). -/
def enhanced_score_shoe (user_length user_width shoe_length shoe_width : Option ℚ) : ℚ :=
  if invalidReq user_length || invalidReq user_width ||
     invalidReq shoe_length || invalidReq shoe_width then 0
  else
    let uL := user_length.getD 0
    let uW := user_width.getD 0
    let sL := shoe_length.getD 0
    let sW := shoe_width.getD 0
    enhanced_score_shoe_4d user_length user_width
      (estimate_foot_area_from_dimensions uL uW)
      (estimate_foot_perimeter_from_dimensions uL uW)
      shoe_length shoe_width
      (estimate_shoe_area_from_dimensions sL sW)
      (estimate_shoe_perimeter_from_dimensions sL sW)

/-- Following the spec's words (§4.4: "All four functions take a
*clearance-adjusted* foot value (foot value + applicable clearance) and
the raw shoe value", applied per claim C5 "including the perimeter and
area sub-scores in the case where those measurements are absent and are
derived by estimation"): a composite scorer identical to
`enhanced_score_shoe_4d` except that the estimation fallback also adds
the perimeter clearance to (resp. scales by the area fraction) the
*estimated* foot perimeter (resp. area) before taking the ratio. -/
def spec_adjusted_score_shoe_4d (user_length user_width user_area user_perimeter
    shoe_length shoe_width shoe_area shoe_perimeter : Option ℚ)
    (shoe_type : Option String) : ℚ :=
  if invalidReq user_length || invalidReq user_width ||
     invalidReq shoe_length || invalidReq shoe_width then 0
  else
    let uL := user_length.getD 0
    let uW := user_width.getD 0
    let sL := shoe_length.getD 0
    let sW := shoe_width.getD 0
    let c := get_clearances_by_shoe_type shoe_type
    let adjP := adjust_perimeter user_perimeter c.perimeter
    let adjA := adjust_area user_area c.area
    let sLen := length_subscore (uL + c.length) sL
    let sWid := width_subscore (uW + c.width) sW
    let sPer :=
      if truthy adjP && truthy shoe_perimeter then
        perimeter_curve (adjP.getD 0 / shoe_perimeter.getD 0)
      else
        let up := estimate_foot_perimeter_from_dimensions uL uW
        let sp := estimate_shoe_perimeter_from_dimensions sL sW
        if truthy up && truthy sp then
          perimeter_curve ((up.getD 0 + c.perimeter) / sp.getD 0)
        else 75
    let sAre :=
      if truthy adjA && truthy shoe_area then
        area_curve (adjA.getD 0 / shoe_area.getD 0)
      else
        let ua := estimate_foot_area_from_dimensions uL uW
        let sa := estimate_shoe_area_from_dimensions sL sW
        if truthy ua && truthy sa then
          area_curve ((ua.getD 0 * (1 + c.area)) / sa.getD 0)
        else 75
    let final : ℚ := 0.375 * sLen + 0.275 * sWid + 0.225 * sPer + 0.125 * sAre
    min 100 (max 0 (pyRound 1 final))

/-! ### Helper lemmas -/

theorem invalidReq_some_of_pos {v : ℚ} (h : 0 < v) : invalidReq (some v) = false := by
  simp [invalidReq, not_le]
  exact h

theorem truthy_some_zero : truthy (some 0) = false := by
  simp [truthy]

theorem adjust_perimeter_some_zero (c : ℚ) : adjust_perimeter (some 0) c = none := by
  simp [adjust_perimeter, truthy_some_zero]

theorem adjust_perimeter_none (c : ℚ) : adjust_perimeter none c = none := rfl

theorem adjust_area_some_zero (c : ℚ) : adjust_area (some 0) c = none := by
  simp [adjust_area, truthy_some_zero]

theorem adjust_area_none (c : ℚ) : adjust_area none c = none := rfl

theorem perimeter_subscore_shoe_zero (adjP : Option ℚ) (a b c d : ℚ) :
    perimeter_subscore adjP (some 0) a b c d = perimeter_subscore adjP none a b c d := by
  simp [perimeter_subscore, truthy_some_zero, truthy]

theorem area_subscore_shoe_zero (adjA : Option ℚ) (a b c d : ℚ) :
    area_subscore adjA (some 0) a b c d = area_subscore adjA none a b c d := by
  simp [area_subscore, truthy_some_zero, truthy]

theorem clearances_length_nonneg (st : Option String) :
    0 ≤ (get_clearances_by_shoe_type st).length := by
  unfold get_clearances_by_shoe_type
  split_ifs <;> norm_num

theorem perimeter_curve_range (r : ℚ) :
    0 ≤ perimeter_curve r ∧ perimeter_curve r ≤ 100 := by
  unfold perimeter_curve
  split_ifs with h1 h2 h3 h4 h5
  · exact ⟨by norm_num, by norm_num⟩
  · obtain ⟨ha, hb⟩ := h2
    ring_nf
    constructor <;> linarith
  · constructor
    · exact le_trans (by norm_num) (le_max_left _ _)
    · refine max_le (by norm_num) ?_
      rcases le_total (0.85 - r) 0.15 with hm | hm
      · rw [min_eq_left hm]; ring_nf; linarith
      · rw [min_eq_right hm]; norm_num
  · obtain ⟨ha, hb⟩ := h4
    ring_nf
    constructor <;> linarith
  · push_neg at h1 h2 h3 h4
    have hr1 : (0.85 : ℚ) ≤ r := h3
    have hr2 : (0.90 : ℚ) ≤ r := h2 hr1
    have hr3 : (1.08 : ℚ) < r := h1 hr2
    have hr4 : (1.12 : ℚ) < r := h4 hr3
    ring_nf
    constructor <;> linarith
  · push_neg at h5
    constructor
    · exact le_trans (by norm_num) (le_max_left _ _)
    · refine max_le (by norm_num) ?_
      rcases le_total (r - 1.18) 0.10 with hm | hm
      · rw [min_eq_left hm]; ring_nf; linarith
      · rw [min_eq_right hm]; norm_num

theorem area_curve_range (r : ℚ) :
    0 ≤ area_curve r ∧ area_curve r ≤ 100 := by
  unfold area_curve
  split_ifs with h1 h2 h3 h4 h5
  · exact ⟨by norm_num, by norm_num⟩
  · obtain ⟨ha, hb⟩ := h2
    ring_nf
    constructor <;> linarith
  · constructor
    · exact le_trans (by norm_num) (le_max_left _ _)
    · refine max_le (by norm_num) ?_
      rcases le_total (0.80 - r) 0.20 with hm | hm
      · rw [min_eq_left hm]; ring_nf; linarith
      · rw [min_eq_right hm]; norm_num
  · obtain ⟨ha, hb⟩ := h4
    ring_nf
    constructor <;> linarith
  · push_neg at h1 h2 h3 h4
    have hr1 : (0.80 : ℚ) ≤ r := h3
    have hr2 : (0.88 : ℚ) ≤ r := h2 hr1
    have hr3 : (1.02 : ℚ) < r := h1 hr2
    have hr4 : (1.08 : ℚ) < r := h4 hr3
    ring_nf
    constructor <;> linarith
  · push_neg at h5
    constructor
    · exact le_trans (by norm_num) (le_max_left _ _)
    · refine max_le (by norm_num) ?_
      rcases le_total (r - 1.15) 0.10 with hm | hm
      · rw [min_eq_left hm]; ring_nf; linarith
      · rw [min_eq_right hm]; norm_num

theorem length_subscore_range {a s : ℚ} (ha : 0 < a) (hs : 0 < s) :
    0 ≤ length_subscore a s ∧ length_subscore a s ≤ 100 := by
  have hr : 0 < a / s := div_pos ha hs
  unfold length_subscore
  dsimp only
  generalize a / s = r at hr ⊢
  split_ifs with h1 h2 h3 h4 h5
  · ring_nf
    constructor <;> linarith
  · push_neg at h1
    ring_nf
    constructor <;> linarith
  · push_neg at h1 h2
    ring_nf
    constructor <;> linarith
  · push_neg at h1 h2 h3
    ring_nf
    constructor <;> linarith
  · push_neg at h1 h2 h3 h4
    ring_nf
    constructor <;> linarith
  · push_neg at h5
    constructor
    · exact le_trans (by norm_num) (le_max_left _ _)
    · refine max_le (by norm_num) ?_
      rcases le_total (r - 1.10) 0.05 with hm | hm
      · rw [min_eq_left hm]; ring_nf; linarith
      · rw [min_eq_right hm]; norm_num

theorem width_subscore_range (a : ℚ) {s : ℚ} (hs : 0 < s) :
    0 ≤ width_subscore a s ∧ width_subscore a s ≤ 100 := by
  have hd : 0 ≤ |a - s| / s := div_nonneg (abs_nonneg _) (le_of_lt hs)
  unfold width_subscore
  dsimp only
  generalize |a - s| / s = d at hd ⊢
  split_ifs with h1 h2 h3 h4
  · ring_nf
    constructor <;> linarith
  · push_neg at h1
    ring_nf
    constructor <;> linarith
  · push_neg at h1 h2
    ring_nf
    constructor <;> linarith
  · push_neg at h1 h2 h3
    ring_nf
    constructor <;> linarith
  · push_neg at h4
    constructor
    · exact le_trans (by norm_num) (le_max_left _ _)
    · refine max_le (by norm_num) ?_
      rcases le_total (d - 0.20) 0.10 with hm | hm
      · rw [min_eq_left hm]; ring_nf; linarith
      · rw [min_eq_right hm]; norm_num

theorem estimate_perimeter_score_range (a b c d : ℚ) :
    0 ≤ estimate_perimeter_score a b c d ∧ estimate_perimeter_score a b c d ≤ 100 := by
  unfold estimate_perimeter_score
  dsimp only
  split_ifs
  · exact perimeter_curve_range _
  · exact ⟨by norm_num, by norm_num⟩

theorem estimate_area_score_range (a b c d : ℚ) :
    0 ≤ estimate_area_score a b c d ∧ estimate_area_score a b c d ≤ 100 := by
  unfold estimate_area_score
  dsimp only
  split_ifs
  · exact area_curve_range _
  · exact ⟨by norm_num, by norm_num⟩

theorem perimeter_subscore_range (adjP sP : Option ℚ) (a b c d : ℚ) :
    0 ≤ perimeter_subscore adjP sP a b c d ∧ perimeter_subscore adjP sP a b c d ≤ 100 := by
  unfold perimeter_subscore
  split_ifs
  · exact perimeter_curve_range _
  · exact estimate_perimeter_score_range a b c d

theorem area_subscore_range (adjA sA : Option ℚ) (a b c d : ℚ) :
    0 ≤ area_subscore adjA sA a b c d ∧ area_subscore adjA sA a b c d ≤ 100 := by
  unfold area_subscore
  split_ifs
  · exact area_curve_range _
  · exact estimate_area_score_range a b c d

theorem score_with_clearances_range (uL uW : ℚ) (uA uP : Option ℚ) (sL sW : ℚ)
    (sA sP : Option ℚ) (c : Clearances) :
    0 ≤ score_with_clearances uL uW uA uP sL sW sA sP c ∧
      score_with_clearances uL uW uA uP sL sW sA sP c ≤ 100 := by
  unfold score_with_clearances
  exact ⟨le_min (by norm_num) (le_max_left _ _), min_le_left _ _⟩

theorem enhanced_score_shoe_4d_range (uL uW uA uP sL sW sA sP : Option ℚ)
    (st : Option String) :
    0 ≤ enhanced_score_shoe_4d uL uW uA uP sL sW sA sP st ∧
      enhanced_score_shoe_4d uL uW uA uP sL sW sA sP st ≤ 100 := by
  unfold enhanced_score_shoe_4d
  split_ifs
  · exact ⟨le_refl 0, by norm_num⟩
  · exact score_with_clearances_range _ _ _ _ _ _ _ _ _

theorem score_4d_pos_unfold {uL uW sL sW : ℚ} (uA uP sA sP : Option ℚ) (st : Option String)
    (hL : 0 < uL) (hW : 0 < uW) (hsL : 0 < sL) (hsW : 0 < sW) :
    enhanced_score_shoe_4d (some uL) (some uW) uA uP (some sL) (some sW) sA sP st =
      score_with_clearances uL uW uA uP sL sW sA sP (get_clearances_by_shoe_type st) := by
  unfold enhanced_score_shoe_4d
  rw [invalidReq_some_of_pos hL, invalidReq_some_of_pos hW,
    invalidReq_some_of_pos hsL, invalidReq_some_of_pos hsW]
  simp

theorem score_with_clearances_eq (uL uW : ℚ) (uA uP : Option ℚ) (sL sW : ℚ)
    (sA sP : Option ℚ) (c : Clearances) :
    score_with_clearances uL uW uA uP sL sW sA sP c =
      min 100 (max 0 (pyRound 1
        (length_subscore (uL + c.length) sL * 0.375
         + width_subscore (uW + c.width) sW * 0.275
         + perimeter_subscore (adjust_perimeter uP c.perimeter) sP uL uW sL sW * 0.225
         + area_subscore (adjust_area uA c.area) sA uL uW sL sW * 0.125))) := by
  unfold score_with_clearances
  dsimp only
  ring_nf

theorem swc_user_area_zero (uL uW : ℚ) (uP : Option ℚ) (sL sW : ℚ)
    (sA sP : Option ℚ) (c : Clearances) :
    score_with_clearances uL uW (some 0) uP sL sW sA sP c =
      score_with_clearances uL uW none uP sL sW sA sP c := by
  unfold score_with_clearances
  dsimp only
  rw [adjust_area_some_zero, adjust_area_none]

theorem swc_user_perimeter_zero (uL uW : ℚ) (uA : Option ℚ) (sL sW : ℚ)
    (sA sP : Option ℚ) (c : Clearances) :
    score_with_clearances uL uW uA (some 0) sL sW sA sP c =
      score_with_clearances uL uW uA none sL sW sA sP c := by
  unfold score_with_clearances
  dsimp only
  rw [adjust_perimeter_some_zero, adjust_perimeter_none]

theorem swc_shoe_area_zero (uL uW : ℚ) (uA uP : Option ℚ) (sL sW : ℚ)
    (sP : Option ℚ) (c : Clearances) :
    score_with_clearances uL uW uA uP sL sW (some 0) sP c =
      score_with_clearances uL uW uA uP sL sW none sP c := by
  unfold score_with_clearances
  dsimp only
  rw [area_subscore_shoe_zero]

theorem swc_shoe_perimeter_zero (uL uW : ℚ) (uA uP : Option ℚ) (sL sW : ℚ)
    (sA : Option ℚ) (c : Clearances) :
    score_with_clearances uL uW uA uP sL sW sA (some 0) c =
      score_with_clearances uL uW uA uP sL sW sA none c := by
  unfold score_with_clearances
  dsimp only
  rw [perimeter_subscore_shoe_zero]

theorem pyRound_eq_down (n : ℕ) (x : ℚ) (f : ℤ) (h1 : (f : ℚ) ≤ x * 10 ^ n)
    (h2 : x * 10 ^ n < f + 1) (h3 : x * 10 ^ n - f < 1 / 2) :
    pyRound n x = (f : ℚ) / 10 ^ n := by
  unfold pyRound
  dsimp only
  rw [show ⌊x * 10 ^ n⌋ = f from Int.floor_eq_iff.mpr ⟨h1, h2⟩]
  rw [if_pos h3]

theorem pyRound_eq_up (n : ℕ) (x : ℚ) (f : ℤ) (h1 : (f : ℚ) ≤ x * 10 ^ n)
    (h2 : x * 10 ^ n < f + 1) (h3 : 1 / 2 < x * 10 ^ n - f) :
    pyRound n x = ((f : ℚ) + 1) / 10 ^ n := by
  unfold pyRound
  dsimp only
  rw [show ⌊x * 10 ^ n⌋ = f from Int.floor_eq_iff.mpr ⟨h1, h2⟩]
  rw [if_neg (by linarith), if_pos h3]
  push_cast
  ring

theorem truthy_some_of_ne {v : ℚ} (h : v ≠ 0) : truthy (some v) = true := by
  simp [truthy, h]

theorem clearances_running :
    get_clearances_by_shoe_type (some "running") = ⟨0.5, 0.08, 0.4, 0.15⟩ := by
  unfold get_clearances_by_shoe_type
  rw [if_pos rfl]

theorem clearances_hiking :
    get_clearances_by_shoe_type (some "hiking") = ⟨0.6, 0.12, 0.6, 0.2⟩ := by
  unfold get_clearances_by_shoe_type
  rw [if_neg (by simp), if_pos rfl]

theorem clearances_casual :
    get_clearances_by_shoe_type (some "casual") = ⟨0.25, 0.04, 0.2, 0.1⟩ := by
  unfold get_clearances_by_shoe_type
  rw [if_neg (by simp), if_neg (by simp), if_pos rfl]

theorem clearances_work :
    get_clearances_by_shoe_type (some "work") = ⟨0.4, 0.08, 0.3, 0.12⟩ := by
  unfold get_clearances_by_shoe_type
  rw [if_neg (by simp), if_neg (by simp), if_neg (by simp), if_pos rfl]

theorem perimeter_subscore_none_left (sP : Option ℚ) (a b c d : ℚ) :
    perimeter_subscore none sP a b c d = estimate_perimeter_score a b c d := by
  simp [perimeter_subscore, truthy]

theorem area_subscore_none_left (sA : Option ℚ) (a b c d : ℚ) :
    area_subscore none sA a b c d = estimate_area_score a b c d := by
  simp [area_subscore, truthy]

theorem foot_perim_33 : estimate_foot_perimeter_from_dimensions 3.3 3.3 = some 20.73 := by
  unfold estimate_foot_perimeter_from_dimensions
  rw [if_pos (by norm_num : (3.3:ℚ) ≠ 0 ∧ (3.3:ℚ) ≠ 0)]
  dsimp only
  rw [show ((3.3:ℚ)/2 - 3.3/2) = 0 from by norm_num]
  rw [pyRound_eq_down 2 _ 2073 (by norm_num [zero_div]) (by norm_num [zero_div])
    (by norm_num [zero_div])]
  norm_num

theorem shoe_perim_44 : estimate_shoe_perimeter_from_dimensions 4 4 = some 26.39 := by
  unfold estimate_shoe_perimeter_from_dimensions
  rw [if_pos (by norm_num : (4:ℚ) ≠ 0 ∧ (4:ℚ) ≠ 0)]
  dsimp only
  rw [show ((4:ℚ)/2 - 4/2) = 0 from by norm_num]
  rw [pyRound_eq_up 2 _ 2638 (by norm_num [zero_div]) (by norm_num [zero_div])
    (by norm_num [zero_div])]
  norm_num

theorem foot_area_33 : estimate_foot_area_from_dimensions 3.3 3.3 = some 7.62 := by
  unfold estimate_foot_area_from_dimensions
  rw [if_pos (by norm_num : (3.3:ℚ) ≠ 0 ∧ (3.3:ℚ) ≠ 0)]
  rw [pyRound_eq_down 2 _ 762 (by norm_num) (by norm_num) (by norm_num)]
  norm_num

theorem shoe_area_44 : estimate_shoe_area_from_dimensions 4 4 = some 12 := by
  unfold estimate_shoe_area_from_dimensions
  rw [if_pos (by norm_num : (4:ℚ) ≠ 0 ∧ (4:ℚ) ≠ 0)]
  rw [pyRound_eq_down 2 _ 1200 (by norm_num) (by norm_num) (by norm_num)]
  norm_num

theorem perimeter_curve_2073_2639 :
    perimeter_curve (20.73 / 26.39) = 139240 / 2639 := by
  unfold perimeter_curve
  rw [if_neg (by norm_num), if_neg (by norm_num), if_pos (by norm_num)]
  rw [min_eq_left (by norm_num), max_eq_right (by norm_num)]
  norm_num

theorem perimeter_curve_2133_2639 :
    perimeter_curve ((20.73 + 0.6) / 26.39) = 169240 / 2639 := by
  unfold perimeter_curve
  rw [if_neg (by norm_num), if_neg (by norm_num), if_pos (by norm_num)]
  rw [min_eq_left (by norm_num), max_eq_right (by norm_num)]
  norm_num

theorem estimate_perimeter_score_3344 :
    estimate_perimeter_score 3.3 3.3 4 4 = 139240 / 2639 := by
  unfold estimate_perimeter_score
  dsimp only
  rw [foot_perim_33, shoe_perim_44]
  rw [if_pos (by rw [truthy_some_of_ne (by norm_num : (20.73:ℚ) ≠ 0),
    truthy_some_of_ne (by norm_num : (26.39:ℚ) ≠ 0)]; rfl)]
  dsimp only [Option.getD_some]
  exact perimeter_curve_2073_2639

theorem estimate_area_score_3344 :
    estimate_area_score 3.3 3.3 4 4 = 129 / 4 := by
  unfold estimate_area_score
  dsimp only
  rw [foot_area_33, shoe_area_44]
  rw [if_pos (by rw [truthy_some_of_ne (by norm_num : (7.62:ℚ) ≠ 0),
    truthy_some_of_ne (by norm_num : (12:ℚ) ≠ 0)]; rfl)]
  dsimp only [Option.getD_some]
  unfold area_curve
  rw [if_neg (by norm_num), if_neg (by norm_num), if_pos (by norm_num)]
  rw [min_eq_left (by norm_num), max_eq_right (by norm_num)]
  norm_num

theorem length_subscore_39_4 : length_subscore (3.3 + 0.6) 4 = 799 / 8 := by
  unfold length_subscore
  dsimp only
  rw [if_neg (by norm_num), if_pos (by norm_num)]
  norm_num

theorem width_subscore_342_4 : width_subscore (3.3 + 0.12) 4 = 43 := by
  unfold width_subscore
  dsimp only
  rw [show |(3.3:ℚ) + 0.12 - 4| = 0.58 from by
    rw [abs_of_neg (by norm_num : (3.3:ℚ) + 0.12 - 4 < 0)]; norm_num]
  rw [if_neg (by norm_num), if_neg (by norm_num), if_pos (by norm_num)]
  norm_num

theorem score_4d_hiking_eval :
    enhanced_score_shoe_4d (some 3.3) (some 3.3) none none
      (some 4) (some 4) none none (some "hiking") = 65.2 := by
  rw [score_4d_pos_unfold none none none none (some "hiking")
    (by norm_num) (by norm_num) (by norm_num) (by norm_num)]
  rw [clearances_hiking, score_with_clearances_eq]
  dsimp only
  rw [adjust_perimeter_none, adjust_area_none, perimeter_subscore_none_left,
    area_subscore_none_left, estimate_perimeter_score_3344, estimate_area_score_3344,
    length_subscore_39_4, width_subscore_342_4]
  rw [pyRound_eq_up 1 _ 651 (by norm_num) (by norm_num) (by norm_num)]
  rw [max_eq_right (by norm_num), min_eq_right (by norm_num)]
  norm_num

theorem spec_score_hiking_eval :
    spec_adjusted_score_shoe_4d (some 3.3) (some 3.3) none none
      (some 4) (some 4) none none (some "hiking") = 73.3 := by
  unfold spec_adjusted_score_shoe_4d
  rw [invalidReq_some_of_pos (by norm_num : (0:ℚ) < 3.3),
    invalidReq_some_of_pos (by norm_num : (0:ℚ) < 4)]
  rw [if_neg (by simp)]
  dsimp only
  rw [clearances_hiking]
  dsimp only
  rw [adjust_perimeter_none, adjust_area_none]
  dsimp only [Option.getD_some]
  rw [foot_perim_33, shoe_perim_44, foot_area_33, shoe_area_44]
  rw [show (truthy (none : Option ℚ) && truthy (none : Option ℚ)) = false from rfl]
  simp only [Bool.false_eq_true, if_false]
  rw [if_pos (show (truthy (some (20.73 : ℚ)) && truthy (some (26.39 : ℚ))) = true from by
    rw [truthy_some_of_ne (by norm_num : (20.73:ℚ) ≠ 0),
      truthy_some_of_ne (by norm_num : (26.39:ℚ) ≠ 0)]; rfl)]
  rw [if_pos (show (truthy (some (7.62 : ℚ)) && truthy (some (12 : ℚ))) = true from by
    rw [truthy_some_of_ne (by norm_num : (7.62:ℚ) ≠ 0),
      truthy_some_of_ne (by norm_num : (12:ℚ) ≠ 0)]; rfl)]
  dsimp only [Option.getD_some]
  rw [length_subscore_39_4, width_subscore_342_4, perimeter_curve_2133_2639]
  rw [show area_curve (7.62 * (1 + 0.2) / 12) = 767 / 10 from by
    unfold area_curve
    rw [if_neg (by norm_num), if_neg (by norm_num), if_pos (by norm_num)]
    rw [min_eq_left (by norm_num), max_eq_right (by norm_num)]
    norm_num]
  rw [pyRound_eq_up 1 _ 732 (by norm_num) (by norm_num) (by norm_num)]
  rw [max_eq_right (by norm_num), min_eq_right (by norm_num)]
  norm_num

theorem adjust_perimeter_some_of_ne {v : ℚ} (c : ℚ) (h : v ≠ 0) :
    adjust_perimeter (some v) c = some (v + c) := by
  unfold adjust_perimeter
  rw [if_pos (truthy_some_of_ne h)]
  rfl

theorem adjust_area_some_of_ne {v : ℚ} (c : ℚ) (h : v ≠ 0) :
    adjust_area (some v) c = some (v * (1 + c)) := by
  unfold adjust_area
  rw [if_pos (truthy_some_of_ne h)]
  rfl

theorem perimeter_subscore_some {p sp : ℚ} (hp : p ≠ 0) (hsp : sp ≠ 0) (a b c d : ℚ) :
    perimeter_subscore (some p) (some sp) a b c d = perimeter_curve (p / sp) := by
  unfold perimeter_subscore
  rw [if_pos (show (truthy (some p) && truthy (some sp)) = true from by
    rw [truthy_some_of_ne hp, truthy_some_of_ne hsp]; rfl)]
  rfl

theorem area_subscore_some {p sp : ℚ} (hp : p ≠ 0) (hsp : sp ≠ 0) (a b c d : ℚ) :
    area_subscore (some p) (some sp) a b c d = area_curve (p / sp) := by
  unfold area_subscore
  rw [if_pos (show (truthy (some p) && truthy (some sp)) = true from by
    rw [truthy_some_of_ne hp, truthy_some_of_ne hsp]; rfl)]
  rfl

theorem length_subscore_1075_105 : length_subscore (10.5 + 0.25) 10.5 = 4840 / 63 := by
  unfold length_subscore
  dsimp only
  rw [if_neg (by norm_num), if_neg (by norm_num), if_neg (by norm_num), if_pos (by norm_num)]
  norm_num

theorem width_subscore_384_38 : width_subscore (3.8 + 0.04) 3.8 = 1860 / 19 := by
  unfold width_subscore
  dsimp only
  rw [show |(3.8:ℚ) + 0.04 - 3.8| = 0.04 from by
    rw [abs_of_pos (by norm_num : (0:ℚ) < 3.8 + 0.04 - 3.8)]; norm_num]
  rw [if_pos (by norm_num)]
  norm_num

theorem score_4d_casual_eval :
    enhanced_score_shoe_4d (some 10.5) (some 3.8) (some 26.25) (some 25.5)
      (some 10.5) (some 3.8) (some 28.125) (some 27.0) (some "casual") = 90.5 := by
  rw [score_4d_pos_unfold (some 26.25) (some 25.5) (some 28.125) (some 27.0) (some "casual")
    (by norm_num) (by norm_num) (by norm_num) (by norm_num)]
  rw [clearances_casual, score_with_clearances_eq]
  dsimp only
  rw [adjust_perimeter_some_of_ne 0.2 (by norm_num : (25.5:ℚ) ≠ 0),
    adjust_area_some_of_ne 0.1 (by norm_num : (26.25:ℚ) ≠ 0)]
  rw [perimeter_subscore_some (by norm_num : (25.5:ℚ) + 0.2 ≠ 0) (by norm_num : (27.0:ℚ) ≠ 0),
    area_subscore_some (by norm_num : (26.25:ℚ) * (1 + 0.1) ≠ 0) (by norm_num : (28.125:ℚ) ≠ 0)]
  rw [length_subscore_1075_105, width_subscore_384_38]
  rw [show perimeter_curve ((25.5 + 0.2) / 27.0) = 100 from by
    unfold perimeter_curve; rw [if_pos (by norm_num)]]
  rw [show area_curve (26.25 * (1 + 0.1) / 28.125) = 880 / 9 from by
    unfold area_curve
    rw [if_neg (by norm_num), if_neg (by norm_num), if_neg (by norm_num), if_pos (by norm_num)]
    norm_num]
  rw [pyRound_eq_up 1 _ 904 (by norm_num) (by norm_num) (by norm_num)]
  rw [max_eq_right (by norm_num), min_eq_right (by norm_num)]
  norm_num

/-! ### Claim theorems -/

/-- C1: whenever any of the four required dimensions (user length/width,
shoe length/width) is `None`, zero, or negative, `enhanced_score_shoe_4d`
returns exactly `0`, for all values of the optional area/perimeter
arguments and any shoe type. -/
theorem c1_invalid_required_input_zero
    (uL uW uA uP sL sW sA sP : Option ℚ) (st : Option String)
    (h : invalidReq uL = true ∨ invalidReq uW = true ∨
      invalidReq sL = true ∨ invalidReq sW = true) :
    enhanced_score_shoe_4d uL uW uA uP sL sW sA sP st = 0 := by
  unfold enhanced_score_shoe_4d
  have hc : (invalidReq uL || invalidReq uW || invalidReq sL || invalidReq sW) = true := by
    rcases h with h | h | h | h <;> simp [h]
  rw [hc]
  simp

/-- C1 witness: a `None` user length (with everything else positive)
scores `0`. -/
theorem c1_invalid_required_input_zero_witness :
    enhanced_score_shoe_4d none (some 3.8) (some 26.25) (some 25.5)
      (some 10.5) (some 3.8) (some 28.125) (some 27.0) (some "running") = 0 :=
  c1_invalid_required_input_zero none (some 3.8) (some 26.25) (some 25.5)
    (some 10.5) (some 3.8) (some 28.125) (some 27.0) (some "running")
    (Or.inl (by decide))

/-- C2: with all four required dimensions positive, the value returned by
`enhanced_score_shoe_4d` is the weighted sum
`length_subscore*0.375 + width_subscore*0.275 + perimeter_subscore*0.225 +
area_subscore*0.125` (each sub-score computed as in the source, via the
clearance profile of the shoe type), rounded to one decimal place and
clamped to `[0, 100]`. -/
theorem c2_weighted_sum_round_clamp
    (uL uW sL sW : ℚ) (uA uP sA sP : Option ℚ) (st : Option String)
    (hL : 0 < uL) (hW : 0 < uW) (hsL : 0 < sL) (hsW : 0 < sW) :
    enhanced_score_shoe_4d (some uL) (some uW) uA uP (some sL) (some sW) sA sP st =
      min 100 (max 0 (pyRound 1
        (length_subscore (uL + (get_clearances_by_shoe_type st).length) sL * 0.375
         + width_subscore (uW + (get_clearances_by_shoe_type st).width) sW * 0.275
         + perimeter_subscore (adjust_perimeter uP (get_clearances_by_shoe_type st).perimeter)
             sP uL uW sL sW * 0.225
         + area_subscore (adjust_area uA (get_clearances_by_shoe_type st).area)
             sA uL uW sL sW * 0.125))) := by
  rw [score_4d_pos_unfold uA uP sA sP st hL hW hsL hsW, score_with_clearances_eq]

/-- C2 witness: the decomposition at a concrete positive call. -/
theorem c2_weighted_sum_round_clamp_witness :
    enhanced_score_shoe_4d (some 10.5) (some 3.8) (some 26.25) (some 25.5)
      (some 10.5) (some 3.8) none none (some "work") =
      min 100 (max 0 (pyRound 1
        (length_subscore (10.5 + (get_clearances_by_shoe_type (some "work")).length) 10.5 * 0.375
         + width_subscore (3.8 + (get_clearances_by_shoe_type (some "work")).width) 3.8 * 0.275
         + perimeter_subscore
             (adjust_perimeter (some 25.5) (get_clearances_by_shoe_type (some "work")).perimeter)
             none 10.5 3.8 10.5 3.8 * 0.225
         + area_subscore
             (adjust_area (some 26.25) (get_clearances_by_shoe_type (some "work")).area)
             none 10.5 3.8 10.5 3.8 * 0.125))) :=
  c2_weighted_sum_round_clamp 10.5 3.8 10.5 3.8 (some 26.25) (some 25.5) none none
    (some "work") (by norm_num) (by norm_num) (by norm_num) (by norm_num)

/-- C3: the composite score is in `[0, 100]` for all inputs, and — for
calls with positive required dimensions — each per-axis sub-score
(length, width, perimeter, area, including the estimation fallbacks with
their default value 75) individually lies in `[0, 100]`. -/
theorem c3_score_and_subscores_in_range :
    (∀ (uL uW uA uP sL sW sA sP : Option ℚ) (st : Option String),
      0 ≤ enhanced_score_shoe_4d uL uW uA uP sL sW sA sP st ∧
        enhanced_score_shoe_4d uL uW uA uP sL sW sA sP st ≤ 100)
    ∧ (∀ (uL sL : ℚ) (st : Option String), 0 < uL → 0 < sL →
        0 ≤ length_subscore (uL + (get_clearances_by_shoe_type st).length) sL ∧
          length_subscore (uL + (get_clearances_by_shoe_type st).length) sL ≤ 100)
    ∧ (∀ (uW sW : ℚ) (st : Option String), 0 < sW →
        0 ≤ width_subscore (uW + (get_clearances_by_shoe_type st).width) sW ∧
          width_subscore (uW + (get_clearances_by_shoe_type st).width) sW ≤ 100)
    ∧ (∀ (adjP sP : Option ℚ) (a b c d : ℚ),
        0 ≤ perimeter_subscore adjP sP a b c d ∧ perimeter_subscore adjP sP a b c d ≤ 100)
    ∧ (∀ (adjA sA : Option ℚ) (a b c d : ℚ),
        0 ≤ area_subscore adjA sA a b c d ∧ area_subscore adjA sA a b c d ≤ 100)
    ∧ (∀ a b c d : ℚ,
        0 ≤ estimate_perimeter_score a b c d ∧ estimate_perimeter_score a b c d ≤ 100)
    ∧ (∀ a b c d : ℚ,
        0 ≤ estimate_area_score a b c d ∧ estimate_area_score a b c d ≤ 100) := by
  refine ⟨fun uL uW uA uP sL sW sA sP st => enhanced_score_shoe_4d_range uL uW uA uP sL sW sA sP st,
    fun uL sL st h1 h2 =>
      length_subscore_range (add_pos_of_pos_of_nonneg h1 (clearances_length_nonneg st)) h2,
    fun uW sW st h => width_subscore_range _ h,
    fun adjP sP a b c d => perimeter_subscore_range adjP sP a b c d,
    fun adjA sA a b c d => area_subscore_range adjA sA a b c d,
    fun a b c d => estimate_perimeter_score_range a b c d,
    fun a b c d => estimate_area_score_range a b c d⟩

/-- C3 witness: the range facts instantiated at concrete inputs (the
hypothesis-carrying conjuncts discharged at positive dimensions). -/
theorem c3_score_and_subscores_in_range_witness :
    (0 ≤ length_subscore (10.5 + (get_clearances_by_shoe_type (some "running")).length) 10.5 ∧
      length_subscore (10.5 + (get_clearances_by_shoe_type (some "running")).length) 10.5 ≤ 100)
    ∧ (0 ≤ width_subscore (3.8 + (get_clearances_by_shoe_type (some "running")).width) 3.6 ∧
      width_subscore (3.8 + (get_clearances_by_shoe_type (some "running")).width) 3.6 ≤ 100) :=
  ⟨c3_score_and_subscores_in_range.2.1 10.5 10.5 (some "running") (by norm_num) (by norm_num),
    c3_score_and_subscores_in_range.2.2.1 3.8 3.6 (some "running") (by norm_num)⟩

/-- C5 counterexample: at the concrete call
`enhanced_score_shoe_4d(3.3, 3.3, None, None, 4, 4, None, None, "hiking")`
the estimation fallback does NOT apply the clearance adjustment: the
code's perimeter sub-score differs from the claimed clearance-adjusted
one, and the composite score differs from the composite described by the
claim (`65.2` versus `73.3`). -/
theorem c5_counterexample_fallback_unadjusted :
    enhanced_score_shoe_4d (some 3.3) (some 3.3) none none
        (some 4) (some 4) none none (some "hiking") = 65.2
    ∧ spec_adjusted_score_shoe_4d (some 3.3) (some 3.3) none none
        (some 4) (some 4) none none (some "hiking") = 73.3
    ∧ estimate_perimeter_score 3.3 3.3 4 4 ≠
        perimeter_curve (((estimate_foot_perimeter_from_dimensions 3.3 3.3).getD 0 +
            (get_clearances_by_shoe_type (some "hiking")).perimeter) /
          (estimate_shoe_perimeter_from_dimensions 4 4).getD 0)
    ∧ enhanced_score_shoe_4d (some 3.3) (some 3.3) none none
        (some 4) (some 4) none none (some "hiking") ≠
      spec_adjusted_score_shoe_4d (some 3.3) (some 3.3) none none
        (some 4) (some 4) none none (some "hiking") := by
  refine ⟨score_4d_hiking_eval, spec_score_hiking_eval, ?_, ?_⟩
  · rw [estimate_perimeter_score_3344, foot_perim_33, shoe_perim_44, clearances_hiking]
    dsimp only [Option.getD_some]
    rw [perimeter_curve_2133_2639]
    norm_num
  · rw [score_4d_hiking_eval, spec_score_hiking_eval]
    norm_num

/-- C5 (amended): with positive required dimensions, the length/width
sub-scores and the measured-perimeter/area sub-scores are computed from
the clearance-adjusted foot values against the raw shoe values; but when
the perimeter (resp. area) measurements are absent or falsy, the fallback
sub-score compares the *unadjusted* estimated foot perimeter (resp. area)
against the estimated shoe value, with no clearance applied, defaulting
to 75 when an estimate is falsy. -/
theorem c5_amended_adjusted_except_fallback
    (uL uW sL sW : ℚ) (uA uP sA sP : Option ℚ) (st : Option String)
    (hL : 0 < uL) (hW : 0 < uW) (hsL : 0 < sL) (hsW : 0 < sW) :
    enhanced_score_shoe_4d (some uL) (some uW) uA uP (some sL) (some sW) sA sP st =
      min 100 (max 0 (pyRound 1
        (0.375 * length_subscore (uL + (get_clearances_by_shoe_type st).length) sL
         + 0.275 * width_subscore (uW + (get_clearances_by_shoe_type st).width) sW
         + 0.225 *
           (if truthy (adjust_perimeter uP (get_clearances_by_shoe_type st).perimeter)
                && truthy sP then
              perimeter_curve
                ((adjust_perimeter uP (get_clearances_by_shoe_type st).perimeter).getD 0 /
                  sP.getD 0)
            else if truthy (estimate_foot_perimeter_from_dimensions uL uW)
                && truthy (estimate_shoe_perimeter_from_dimensions sL sW) then
              perimeter_curve ((estimate_foot_perimeter_from_dimensions uL uW).getD 0 /
                (estimate_shoe_perimeter_from_dimensions sL sW).getD 0)
            else 75)
         + 0.125 *
           (if truthy (adjust_area uA (get_clearances_by_shoe_type st).area)
                && truthy sA then
              area_curve
                ((adjust_area uA (get_clearances_by_shoe_type st).area).getD 0 / sA.getD 0)
            else if truthy (estimate_foot_area_from_dimensions uL uW)
                && truthy (estimate_shoe_area_from_dimensions sL sW) then
              area_curve ((estimate_foot_area_from_dimensions uL uW).getD 0 /
                (estimate_shoe_area_from_dimensions sL sW).getD 0)
            else 75)))) := by
  rw [score_4d_pos_unfold uA uP sA sP st hL hW hsL hsW]
  unfold score_with_clearances perimeter_subscore area_subscore
    estimate_perimeter_score estimate_area_score
  dsimp only

/-- C5 (amended) witness: the decomposition at a concrete positive call
on the estimation-fallback path. -/
theorem c5_amended_adjusted_except_fallback_witness :
    enhanced_score_shoe_4d (some 10.5) (some 4) none none
        (some 10.5) (some 4) none none (some "running") =
      min 100 (max 0 (pyRound 1
        (0.375 * length_subscore (10.5 + (get_clearances_by_shoe_type (some "running")).length) 10.5
         + 0.275 * width_subscore (4 + (get_clearances_by_shoe_type (some "running")).width) 4
         + 0.225 *
           (if truthy (adjust_perimeter none (get_clearances_by_shoe_type (some "running")).perimeter)
                && truthy (none : Option ℚ) then
              perimeter_curve
                ((adjust_perimeter none (get_clearances_by_shoe_type (some "running")).perimeter).getD 0 /
                  (none : Option ℚ).getD 0)
            else if truthy (estimate_foot_perimeter_from_dimensions 10.5 4)
                && truthy (estimate_shoe_perimeter_from_dimensions 10.5 4) then
              perimeter_curve ((estimate_foot_perimeter_from_dimensions 10.5 4).getD 0 /
                (estimate_shoe_perimeter_from_dimensions 10.5 4).getD 0)
            else 75)
         + 0.125 *
           (if truthy (adjust_area none (get_clearances_by_shoe_type (some "running")).area)
                && truthy (none : Option ℚ) then
              area_curve
                ((adjust_area none (get_clearances_by_shoe_type (some "running")).area).getD 0 /
                  (none : Option ℚ).getD 0)
            else if truthy (estimate_foot_area_from_dimensions 10.5 4)
                && truthy (estimate_shoe_area_from_dimensions 10.5 4) then
              area_curve ((estimate_foot_area_from_dimensions 10.5 4).getD 0 /
                (estimate_shoe_area_from_dimensions 10.5 4).getD 0)
            else 75)))) :=
  c5_amended_adjusted_except_fallback 10.5 4 10.5 4 none none none none (some "running")
    (by norm_num) (by norm_num) (by norm_num) (by norm_num)

/-- C6: the clearance lookup is total and returns exactly the documented
profiles for `running`, `hiking`, `casual` and `work`, and the casual
profile for every other input, including `None` and the empty string. -/
theorem c6_clearance_table_total :
    get_clearances_by_shoe_type (some "running") = ⟨0.5, 0.08, 0.4, 0.15⟩
    ∧ get_clearances_by_shoe_type (some "hiking") = ⟨0.6, 0.12, 0.6, 0.2⟩
    ∧ get_clearances_by_shoe_type (some "casual") = ⟨0.25, 0.04, 0.2, 0.1⟩
    ∧ get_clearances_by_shoe_type (some "work") = ⟨0.4, 0.08, 0.3, 0.12⟩
    ∧ get_clearances_by_shoe_type none = ⟨0.25, 0.04, 0.2, 0.1⟩
    ∧ get_clearances_by_shoe_type (some "") = ⟨0.25, 0.04, 0.2, 0.1⟩
    ∧ (∀ t : Option String, t ≠ some "running" → t ≠ some "hiking" →
        t ≠ some "casual" → t ≠ some "work" →
        get_clearances_by_shoe_type t = ⟨0.25, 0.04, 0.2, 0.1⟩) := by
  refine ⟨clearances_running, clearances_hiking, clearances_casual, clearances_work, ?_, ?_, ?_⟩
  · unfold get_clearances_by_shoe_type
    rw [if_neg (by simp), if_neg (by simp), if_neg (by simp), if_neg (by simp)]
  · unfold get_clearances_by_shoe_type
    rw [if_neg (by simp), if_neg (by simp), if_neg (by simp), if_neg (by simp)]
  · intro t h1 h2 h3 h4
    unfold get_clearances_by_shoe_type
    rw [if_neg h1, if_neg h2, if_neg h3, if_neg h4]

/-- C6 witness: an arbitrary unrecognized type string falls back to the
casual profile. -/
theorem c6_clearance_table_total_witness :
    get_clearances_by_shoe_type (some "sneaker") = ⟨0.25, 0.04, 0.2, 0.1⟩ :=
  c6_clearance_table_total.2.2.2.2.2.2 (some "sneaker")
    (by simp) (by simp) (by simp) (by simp)

/-- C7: for positive dimensions, the foot/shoe area estimators return
`length*width*0.7` resp. `length*width*0.75` rounded to 2 decimals, the
foot perimeter estimator returns twice Ramanujan's ellipse approximation
on semi-axes `a = length/2`, `b = width/2` (with the source's value
`3.14159` for pi and `sqrtQ` modelling `** 0.5`), rounded to 2 decimals,
and the shoe perimeter estimator returns the same formula scaled by `2.1`
(an additional factor `1.05`). -/
theorem c7_estimator_formulas (l w : ℚ) (hl : 0 < l) (hw : 0 < w) :
    estimate_foot_area_from_dimensions l w = some (pyRound 2 (l * w * 0.7))
    ∧ estimate_shoe_area_from_dimensions l w = some (pyRound 2 (l * w * 0.75))
    ∧ estimate_foot_perimeter_from_dimensions l w =
        some (pyRound 2 (2 * (3.14159 * (l / 2 + w / 2) *
          (1 + 3 * ((l / 2 - w / 2) / (l / 2 + w / 2)) ^ 2 /
            (10 + sqrtQ (4 - 3 * ((l / 2 - w / 2) / (l / 2 + w / 2)) ^ 2))))))
    ∧ estimate_shoe_perimeter_from_dimensions l w =
        some (pyRound 2 (2.1 * (3.14159 * (l / 2 + w / 2) *
          (1 + 3 * ((l / 2 - w / 2) / (l / 2 + w / 2)) ^ 2 /
            (10 + sqrtQ (4 - 3 * ((l / 2 - w / 2) / (l / 2 + w / 2)) ^ 2)))))) := by
  have h : l ≠ 0 ∧ w ≠ 0 := ⟨ne_of_gt hl, ne_of_gt hw⟩
  refine ⟨?_, ?_, ?_, ?_⟩
  · unfold estimate_foot_area_from_dimensions
    rw [if_pos h]
  · unfold estimate_shoe_area_from_dimensions
    rw [if_pos h]
  · unfold estimate_foot_perimeter_from_dimensions
    rw [if_pos h]
  · unfold estimate_shoe_perimeter_from_dimensions
    rw [if_pos h]

/-- C7 witness: the foot area estimator formula at 10.5 by 4 inches. -/
theorem c7_estimator_formulas_witness :
    estimate_foot_area_from_dimensions 10.5 4 = some (pyRound 2 (10.5 * 4 * 0.7)) :=
  (c7_estimator_formulas 10.5 4 (by norm_num) (by norm_num)).1

/-- C8: the near-identical-dimensions call
`enhanced_score_shoe_4d(10.5, 3.8, 26.25, 25.5, 10.5, 3.8, 28.125, 27.0,
"casual")` scores at least 80 (in fact exactly 90.5). -/
theorem c8_perfect_fit_ceiling :
    80 ≤ enhanced_score_shoe_4d (some 10.5) (some 3.8) (some 26.25) (some 25.5)
      (some 10.5) (some 3.8) (some 28.125) (some 27.0) (some "casual") := by
  rw [score_4d_casual_eval]
  norm_num

/-- C9: for positive inputs, the legacy entry point `enhanced_score_shoe`
returns exactly the value of `enhanced_score_shoe_4d` on the same four
dimensions with geometrically estimated areas/perimeters on both sides and
shoe type `"casual"` (the code passes its default `"general"`, which maps
to the same casual clearance profile). -/
theorem c9_legacy_equals_4d_casual (uL uW sL sW : ℚ)
    (h1 : 0 < uL) (h2 : 0 < uW) (h3 : 0 < sL) (h4 : 0 < sW) :
    enhanced_score_shoe (some uL) (some uW) (some sL) (some sW) =
      enhanced_score_shoe_4d (some uL) (some uW)
        (estimate_foot_area_from_dimensions uL uW)
        (estimate_foot_perimeter_from_dimensions uL uW)
        (some sL) (some sW)
        (estimate_shoe_area_from_dimensions sL sW)
        (estimate_shoe_perimeter_from_dimensions sL sW)
        (some "casual") := by
  unfold enhanced_score_shoe
  rw [invalidReq_some_of_pos h1, invalidReq_some_of_pos h2,
    invalidReq_some_of_pos h3, invalidReq_some_of_pos h4]
  rw [if_neg (by simp)]
  dsimp only [Option.getD_some]
  rw [score_4d_pos_unfold (estimate_foot_area_from_dimensions uL uW)
      (estimate_foot_perimeter_from_dimensions uL uW)
      (estimate_shoe_area_from_dimensions sL sW)
      (estimate_shoe_perimeter_from_dimensions sL sW) (some "general") h1 h2 h3 h4,
    score_4d_pos_unfold (estimate_foot_area_from_dimensions uL uW)
      (estimate_foot_perimeter_from_dimensions uL uW)
      (estimate_shoe_area_from_dimensions sL sW)
      (estimate_shoe_perimeter_from_dimensions sL sW) (some "casual") h1 h2 h3 h4]
  rw [show get_clearances_by_shoe_type (some "general") =
      get_clearances_by_shoe_type (some "casual") from by
    rw [clearances_casual]
    unfold get_clearances_by_shoe_type
    rw [if_neg (by simp), if_neg (by simp), if_neg (by simp), if_neg (by simp)]]

/-- C9 witness: the equivalence at a concrete positive call. -/
theorem c9_legacy_equals_4d_casual_witness :
    enhanced_score_shoe (some 10.5) (some 4) (some 10.5) (some 4) =
      enhanced_score_shoe_4d (some 10.5) (some 4)
        (estimate_foot_area_from_dimensions 10.5 4)
        (estimate_foot_perimeter_from_dimensions 10.5 4)
        (some 10.5) (some 4)
        (estimate_shoe_area_from_dimensions 10.5 4)
        (estimate_shoe_perimeter_from_dimensions 10.5 4)
        (some "casual") :=
  c9_legacy_equals_4d_casual 10.5 4 10.5 4
    (by norm_num) (by norm_num) (by norm_num) (by norm_num)

/-- C10: with positive required dimensions, an optional area/perimeter
equal to exactly `0` is treated identically to `None` in every optional
slot (the sub-score falls back to estimation rather than dividing by
zero), and negative optional values still yield a composite score in
`[0, 100]` — the scorer is total over all numeric-or-`None` optional
inputs. -/
theorem c10_zero_optionals_as_none_total (uL uW sL sW : ℚ)
    (hL : 0 < uL) (hW : 0 < uW) (hsL : 0 < sL) (hsW : 0 < sW) :
    (∀ (uP sA sP : Option ℚ) (st : Option String),
      enhanced_score_shoe_4d (some uL) (some uW) (some 0) uP (some sL) (some sW) sA sP st =
        enhanced_score_shoe_4d (some uL) (some uW) none uP (some sL) (some sW) sA sP st)
    ∧ (∀ (uA sA sP : Option ℚ) (st : Option String),
      enhanced_score_shoe_4d (some uL) (some uW) uA (some 0) (some sL) (some sW) sA sP st =
        enhanced_score_shoe_4d (some uL) (some uW) uA none (some sL) (some sW) sA sP st)
    ∧ (∀ (uA uP sP : Option ℚ) (st : Option String),
      enhanced_score_shoe_4d (some uL) (some uW) uA uP (some sL) (some sW) (some 0) sP st =
        enhanced_score_shoe_4d (some uL) (some uW) uA uP (some sL) (some sW) none sP st)
    ∧ (∀ (uA uP sA : Option ℚ) (st : Option String),
      enhanced_score_shoe_4d (some uL) (some uW) uA uP (some sL) (some sW) sA (some 0) st =
        enhanced_score_shoe_4d (some uL) (some uW) uA uP (some sL) (some sW) sA none st)
    ∧ (∀ (a p a2 p2 : ℚ) (st : Option String), a < 0 → p < 0 → a2 < 0 → p2 < 0 →
        0 ≤ enhanced_score_shoe_4d (some uL) (some uW) (some a) (some p)
            (some sL) (some sW) (some a2) (some p2) st ∧
          enhanced_score_shoe_4d (some uL) (some uW) (some a) (some p)
            (some sL) (some sW) (some a2) (some p2) st ≤ 100) := by
  refine ⟨?_, ?_, ?_, ?_, ?_⟩
  · intro uP sA sP st
    rw [score_4d_pos_unfold (some 0) uP sA sP st hL hW hsL hsW,
      score_4d_pos_unfold none uP sA sP st hL hW hsL hsW]
    exact swc_user_area_zero uL uW uP sL sW sA sP _
  · intro uA sA sP st
    rw [score_4d_pos_unfold uA (some 0) sA sP st hL hW hsL hsW,
      score_4d_pos_unfold uA none sA sP st hL hW hsL hsW]
    exact swc_user_perimeter_zero uL uW uA sL sW sA sP _
  · intro uA uP sP st
    rw [score_4d_pos_unfold uA uP (some 0) sP st hL hW hsL hsW,
      score_4d_pos_unfold uA uP none sP st hL hW hsL hsW]
    exact swc_shoe_area_zero uL uW uA uP sL sW sP _
  · intro uA uP sA st
    rw [score_4d_pos_unfold uA uP sA (some 0) st hL hW hsL hsW,
      score_4d_pos_unfold uA uP sA none st hL hW hsL hsW]
    exact swc_shoe_perimeter_zero uL uW uA uP sL sW sA _
  · intro a p a2 p2 st ha hp ha2 hp2
    exact enhanced_score_shoe_4d_range (some uL) (some uW) (some a) (some p)
      (some sL) (some sW) (some a2) (some p2) st

/-- C10 witness: zero-as-None and totality at a concrete positive call
with negative optional measurements. -/
theorem c10_zero_optionals_as_none_total_witness :
    (enhanced_score_shoe_4d (some 10.5) (some 3.8) (some 0) none
        (some 10.5) (some 3.8) none none (some "casual") =
      enhanced_score_shoe_4d (some 10.5) (some 3.8) none none
        (some 10.5) (some 3.8) none none (some "casual"))
    ∧ (0 ≤ enhanced_score_shoe_4d (some 10.5) (some 3.8) (some (-1)) (some (-2))
          (some 10.5) (some 3.8) (some (-3)) (some (-4)) (some "work") ∧
        enhanced_score_shoe_4d (some 10.5) (some 3.8) (some (-1)) (some (-2))
          (some 10.5) (some 3.8) (some (-3)) (some (-4)) (some "work") ≤ 100) :=
  ⟨(c10_zero_optionals_as_none_total 10.5 3.8 10.5 3.8
      (by norm_num) (by norm_num) (by norm_num) (by norm_num)).1 none none none (some "casual"),
    (c10_zero_optionals_as_none_total 10.5 3.8 10.5 3.8
      (by norm_num) (by norm_num) (by norm_num) (by norm_num)).2.2.2.2 (-1) (-2) (-3) (-4)
      (some "work") (by norm_num) (by norm_num) (by norm_num) (by norm_num)⟩

end ShoeShopper
